import Mathlib

/-!
Shallow embedding of the node-identity core of an Andersen-style points-to
analysis (`NodeFactory.cpp` together with the class layout it implements).
The data model follows the C++ source: a flat table of `AndersNode`s with
monotonically assigned indices, reverse-lookup maps from program entities to
node indices, recursive constant-expression resolution
(`getValueNodeForConstant` / `getObjectNodeForConstant`), and the
byte-offset → field-number walk (`offsetToFieldNum`, `constGEPtoFieldNum`,
`getGEPOffset`).  Fatal contract violations (C `assert` / `llvm_unreachable`)
are modelled as `Except.error` carrying the source's message; the
union-in-the-middle diagnostic of `offsetToFieldNum` is modelled as a
non-fatal `warned` flag on a successful result.
-/

namespace Andersen

mutual
/-- LLVM types as consulted by the source: integers (standing for any
non-aggregate scalar), pointers with their pointee type, arrays, and
structures.  The byte offset of each structure element (the data
`DataLayout::getStructLayout` reports via `getElementOffset`) is carried
inline on the field list. -/
inductive Ty where
  | intTy (bits : Nat)
  | ptrTy (pointee : Ty)
  | arrayTy (n : Nat) (elem : Ty)
  | structTy (fields : Fields)
deriving DecidableEq
inductive Fields where
  | fnil
  | fcons (ty : Ty) (byteOff : Nat) (rest : Fields)
deriving DecidableEq
end

mutual
/-- Structural size of a type; used as a provably sufficient iteration bound
for the `offsetToFieldNum` loop, which descends into a structure element on
every iteration. -/
def Ty.size : Ty → Nat
  | .intTy _ => 1
  | .ptrTy t => Ty.size t + 1
  | .arrayTy _ e => Ty.size e + 1
  | .structTy fs => Fields.size fs + 1
def Fields.size : Fields → Nat
  | .fnil => 1
  | .fcons t _ rest => Ty.size t + Fields.size rest + 1
end

def Ty.isPointerTy : Ty → Bool
  | .ptrTy _ => true
  | _ => false

def Ty.isStructTy : Ty → Bool
  | .structTy _ => true
  | _ => false

/-- Number of elements of a field list. -/
def Fields.length : Fields → Nat
  | .fnil => 0
  | .fcons _ _ rest => Fields.length rest + 1

/-- `StructType::getElementType(idx)` together with
`StructLayout::getElementOffset(idx)`. -/
def Fields.get? : Fields → Nat → Option (Ty × Nat)
  | .fnil, _ => none
  | .fcons t off _, 0 => some (t, off)
  | .fcons _ _ rest, n + 1 => Fields.get? rest n

/-- Helper scan for `elemContainingOffset`: remembers the position of the
last element whose byte offset is ≤ the query offset. -/
def elemContainingOffsetGo : Fields → Nat → Nat → Nat → Nat
  | .fnil, _, _, best => best
  | .fcons _ eOff rest, off, cur, best =>
    if eOff ≤ off then elemContainingOffsetGo rest off (cur + 1) cur
    else best

/-- `StructLayout::getElementContainingOffset`: index of the element whose
byte range contains the given offset, i.e. (element offsets being ascending)
the last element whose byte offset is ≤ the query offset. -/
def elemContainingOffset (fs : Fields) (off : Nat) : Nat :=
  elemContainingOffsetGo fs off 0 0

/-- Modelled from the spec: the Layout Oracle of §6 stands for the two
collaborators whose code is not under `src/` — the `DataLayout` the factory
holds and the `StructAnalyzer` pre-pass.  `allocSize` models
`DataLayout::getTypeAllocSize`; `structInfo` models
`StructAnalyzer::getStructInfo` (spec: "structInfoMap should have info for
all structs", `none` standing for a missing entry); the function it returns
models `StructInfo::getOffset`, the pre-summed logical field ordinal of a
structure element (spec §6 `fieldOrdinalBase`); `indexedOffset` models
`DataLayout::getIndexedOffset` on a GEP's pointer-operand type and constant
index list. -/
structure Oracle where
  allocSize : Ty → Nat
  structInfo : Fields → Option (Nat → Nat)
  indexedOffset : Ty → List Int → Nat

/-- Result of the field-number walk: the computed field number together with
whether the non-fatal "GEP into the middle of a field" diagnostic was
emitted on the way (the warning-and-break branch of `offsetToFieldNum`). -/
structure FieldNumRes where
  num : Nat
  warned : Bool
deriving DecidableEq

/-- Collapse of array types at the head of the loop body:
`while (arrayType) trueElemType = arrayType->getElementType()`. -/
def collapseArrays : Ty → Ty
  | .arrayTy _ e => collapseArrays e
  | t => t

/-- The `while (offset > 0)` loop of `AndersNodeFactory::offsetToFieldNum`.
Each iteration collapses array types, reduces the offset modulo the
allocation size of the current type, and then either descends into the
structure element containing the offset (accumulating that element's
logical field ordinal) or — for a non-structure type with a nonzero
remaining offset — emits the union/partial-overlap diagnostic and stops
with the field number accumulated so far.  `fuel` bounds the number of
iterations; the loop strictly descends the type each iteration, so
`Ty.size` of the walked type is a sufficient bound, and the fuel-exhausted
error is unreachable from the wrapper. -/
def offsetToFieldNumLoop (o : Oracle) : Nat → Ty → Nat → Nat → Except String FieldNumRes
  | 0, _, _, _ => .error "loop bound exhausted"
  | fuel + 1, ty, offset, ret =>
    if offset = 0 then .ok ⟨ret, false⟩
    else
      let t := collapseArrays ty
      let off1 := offset % o.allocSize t
      match t with
      | .structTy fields =>
        match o.structInfo fields with
        | none => .error "structInfoMap should have info for all structs!"
        | some stOffset =>
          let idx := elemContainingOffset fields off1
          match Fields.get? fields idx with
          | none => .error "struct element index out of range"
          | some (elemTy, elemOff) =>
            offsetToFieldNumLoop o fuel elemTy (off1 - elemOff) (ret + stOffset idx)
      | _ =>
        if off1 ≠ 0 then .ok ⟨ret, true⟩
        else .ok ⟨ret, false⟩

/-- `AndersNodeFactory::offsetToFieldNum(ptr, offset)`: the entry assertion
requires a pointer-typed `ptr` (only the type of `ptr` is consulted, so the
embedding takes the type directly); the walk starts at the pointee type with
an accumulated field number of 0. -/
def offsetToFieldNum (o : Oracle) (ptrType : Ty) (offset : Nat) : Except String FieldNumRes :=
  match ptrType with
  | .ptrTy elem => offsetToFieldNumLoop o (Ty.size elem) elem offset 0
  | _ => .error "Passing a non-ptr to offsetToFieldNum!"

/-- One index operand of a GEP expression.  `getGEPOffset` asserts every
index is a `ConstantInt`; a non-constant index is the fatal case. -/
inductive GepIdx where
  | constInt (v : Int)
  | nonConstIdx
deriving DecidableEq

/-- The constant pointer expressions the two resolution functions inspect:
`ConstantPointerNull`, `UndefValue`, `GlobalValue`, and the `ConstantExpr`
opcodes of the switch statements (`GetElementPtr` with its pointer operand
and index operands, `IntToPtr`, `PtrToInt`, `BitCast`), plus a stand-in for
every other (unhandled) constant expression.  Each constructor carries what
determines the constant's own type: null pointers, globals, GEPs and
int-to-ptr casts are pointer-typed; a ptr-to-int cast is integer-typed. -/
inductive Constant where
  | nullPtr (pointee : Ty)
  | undef (ty : Ty)
  | globalValue (id : Nat) (pointee : Ty)
  | gep (base : Constant) (indices : List GepIdx) (resPointee : Ty)
  | intToPtr (op : Constant) (pointee : Ty)
  | ptrToInt (op : Constant) (bits : Nat)
  | bitCast (op : Constant) (ty : Ty)
  | otherExpr (ty : Ty)
deriving DecidableEq

/-- `Constant::getType()`. -/
def Constant.ty : Constant → Ty
  | .nullPtr p => .ptrTy p
  | .undef t => t
  | .globalValue _ p => .ptrTy p
  | .gep _ _ p => .ptrTy p
  | .intToPtr _ p => .ptrTy p
  | .ptrToInt _ b => .intTy b
  | .bitCast _ t => t
  | .otherExpr t => t

/-- `isa<GlobalValue>(c)`. -/
def Constant.isGlobalValue : Constant → Bool
  | .globalValue _ _ => true
  | _ => false

/-- Nesting depth of a constant; a sufficient recursion bound for
`getGEPOffset`, which recurses on the (cast-stripped) pointer operand. -/
def Constant.size : Constant → Nat
  | .nullPtr _ => 1
  | .undef _ => 1
  | .globalValue _ _ => 1
  | .gep base _ _ => Constant.size base + 1
  | .intToPtr c _ => Constant.size c + 1
  | .ptrToInt c _ => Constant.size c + 1
  | .bitCast c _ => Constant.size c + 1
  | .otherExpr _ => 1

/-- `Value::stripPointerCasts()` restricted to this constant universe:
looks through pointer bit-casts. -/
def stripPointerCasts : Constant → Constant
  | .bitCast op _ => stripPointerCasts op
  | c => c

/-- `GetUnderlyingObject(v, dataLayout, 0)` (LLVM `ValueTracking`)
restricted to this constant universe: repeatedly steps to a GEP's pointer
operand and through bit-casts until a base object is reached. -/
def getUnderlyingObject : Constant → Constant
  | .gep base _ _ => getUnderlyingObject base
  | .bitCast op _ => getUnderlyingObject op
  | c => c

/-- The index-constness assertion of `getGEPOffset`: every GEP index must be
a `ConstantInt`; returns the collected integer values. -/
def constIdxVals : List GepIdx → Except String (List Int)
  | [] => .ok []
  | .constInt v :: rest => do
    let vs ← constIdxVals rest
    .ok (v :: vs)
  | .nonConstIdx :: _ => .error "getGEPOffset does not accept non-const GEP indices!"

/-- Body of the static `getGEPOffset(value, dataLayout)`: asserts the value
is a GEP; strips pointer casts off the pointer operand and, if a nested GEP
constant expression remains, accumulates its offset recursively; asserts
all indices are constant; then adds
`dataLayout->getIndexedOffset(pointerOperand->getType(), indexOps)`.
`fuel` bounds the recursion; the nesting depth `Constant.size` is a
sufficient bound, supplied by the wrapper below. -/
def getGEPOffsetFuel (o : Oracle) : Nat → Constant → Except String Nat
  | 0, _ => .error "recursion bound exhausted"
  | fuel + 1, c =>
    match c with
    | .gep base idxs _ => do
      let nested ←
        match stripPointerCasts base with
        | .gep b2 i2 p2 => getGEPOffsetFuel o fuel (.gep b2 i2 p2)
        | _ => .ok 0
      let vals ← constIdxVals idxs
      .ok (nested + o.indexedOffset (Constant.ty base) vals)
    | _ => .error "getGEPOffset receives a non-gep value!"

/-- `getGEPOffset(value, dataLayout)` with its provably sufficient
recursion bound. -/
def getGEPOffset (o : Oracle) (c : Constant) : Except String Nat :=
  getGEPOffsetFuel o (Constant.size c) c

/-- `AndersNodeFactory::constGEPtoFieldNum(expr)`: asserts the expression is
a GEP, resolves its accumulated byte offset, and converts it to a logical
field number starting from the underlying object's type. -/
def constGEPtoFieldNum (o : Oracle) (c : Constant) : Except String FieldNumRes :=
  match c with
  | .gep _ _ _ => do
    let off ← getGEPOffset o c
    offsetToFieldNum o (Constant.ty (getUnderlyingObject c)) off
  | _ => .error "constGEPtoVariable receives a non-gep expr!"

/-- Program entities (`llvm::Value*`) as the factory's maps key them:
non-constant values and functions are distinct opaque handles; constants are
uniqued by LLVM, so structural equality of the constant model stands for
pointer equality of the C++ `Value*`. -/
inductive Value where
  | var (id : Nat)
  | func (id : Nat)
  | const (c : Constant)
deriving DecidableEq

/-- `AndersNode::VALUE_NODE` / `AndersNode::OBJ_NODE`. -/
inductive NodeType where
  | VALUE_NODE
  | OBJ_NODE
deriving DecidableEq

/-- An `AndersNode`: its kind, its stored index, and the (optional) program
entity it was created for. -/
structure AndersNode where
  type : NodeType
  idx : Nat
  val : Option Value
deriving DecidableEq

/-- The factory state: the flat node table and the four reverse-lookup maps
(`valueNodeMap`, `objNodeMap`, `returnMap`, `varargMap`), the latter two
keyed by functions. -/
structure AndersNodeFactory where
  nodes : List AndersNode
  valueNodeMap : List (Value × Nat)
  objNodeMap : List (Value × Nat)
  returnMap : List (Nat × Nat)
  varargMap : List (Nat × Nat)
deriving DecidableEq

/-- Association-list lookup standing for `DenseMap::find` /
`DenseMap::count` on the reverse maps. -/
def lookupA {α : Type} [DecidableEq α] : List (α × Nat) → α → Option Nat
  | [], _ => none
  | (k, n) :: rest, v => if k = v then some n else lookupA rest v

/-- Modelled from the spec: `NodeFactory.h` (not under `src/`) declares the
not-found sentinel `AndersNodeFactory::InvalidIndex` returned by the
`get...NodeFor` lookups; the spec (§4.1) calls it `NotFound`. -/
def InvalidIndex : Nat := 4294967295

/-- Modelled from the spec: `NodeFactory.h` (not under `src/`) defines the
inline accessor `getUniversalPtrNode`; spec §3 fixes the Universal Value
node at index 0 ("Node #0 is always the universal ptr"). -/
def getUniversalPtrNode : Nat := 0

/-- Modelled from the spec: `NodeFactory.h` accessor `getUniversalObjNode`;
spec §3 fixes the Universal Object node at index 1. -/
def getUniversalObjNode : Nat := 1

/-- Modelled from the spec: `NodeFactory.h` accessor `getNullPtrNode`;
spec §3 fixes the Null Value node at index 2. -/
def getNullPtrNode : Nat := 2

/-- Modelled from the spec: `NodeFactory.h` accessor `getNullObjectNode`;
spec §3 fixes the Null Object node at index 3. -/
def getNullObjectNode : Nat := 3

/-- Modelled from the spec: `NodeFactory.h` accessor `getIntPtrNode`;
spec §3 fixes the Int Value node at index 4. -/
def getIntPtrNode : Nat := 4

/-- Modelled from the spec: `NodeFactory.h` accessor
`getOffsetObjectNode(base, offset)`; spec §3 addresses the sub-object at
logical field `offset` of a base object as `baseObjectIndex + fieldNumber`. -/
def getOffsetObjectNode (base off : Nat) : Nat := base + off

/-- `AndersNodeFactory::AndersNodeFactory()`: pushes the five reserved
nodes — universal value (#0), universal object (#1), null pointer (#2),
null object (#3), int-value sentinel (#4) — into the empty table. -/
def newAndersNodeFactory : AndersNodeFactory :=
  { nodes :=
      [⟨.VALUE_NODE, 0, none⟩,
       ⟨.OBJ_NODE, 1, none⟩,
       ⟨.VALUE_NODE, 2, none⟩,
       ⟨.OBJ_NODE, 3, none⟩,
       ⟨.VALUE_NODE, 4, none⟩],
    valueNodeMap := [],
    objNodeMap := [],
    returnMap := [],
    varargMap := [] }

/-- `AndersNodeFactory::createValueNode(val)`: appends a VALUE node at index
`nodes.size()`; for a non-null `val`, asserts the entity is not yet mapped
and records the mapping. -/
def createValueNode (fac : AndersNodeFactory) (val : Option Value) :
    Except String (Nat × AndersNodeFactory) :=
  let nextIdx := fac.nodes.length
  let nodes' := fac.nodes ++ [⟨.VALUE_NODE, nextIdx, val⟩]
  match val with
  | some v =>
    if (lookupA fac.valueNodeMap v).isSome then
      .error "Trying to insert two mappings to revValueNodeMap!"
    else
      .ok (nextIdx, { fac with nodes := nodes', valueNodeMap := (v, nextIdx) :: fac.valueNodeMap })
  | none => .ok (nextIdx, { fac with nodes := nodes' })

/-- `AndersNodeFactory::createObjectNode(val)`: symmetric to
`createValueNode` with OBJ kind and the object-node map. -/
def createObjectNode (fac : AndersNodeFactory) (val : Option Value) :
    Except String (Nat × AndersNodeFactory) :=
  let nextIdx := fac.nodes.length
  let nodes' := fac.nodes ++ [⟨.OBJ_NODE, nextIdx, val⟩]
  match val with
  | some v =>
    if (lookupA fac.objNodeMap v).isSome then
      .error "Trying to insert two mappings to revObjNodeMap!"
    else
      .ok (nextIdx, { fac with nodes := nodes', objNodeMap := (v, nextIdx) :: fac.objNodeMap })
  | none => .ok (nextIdx, { fac with nodes := nodes' })

/-- `AndersNodeFactory::createReturnNode(f)`: appends a VALUE node recording
the function and asserts the function has no return node yet. -/
def createReturnNode (fac : AndersNodeFactory) (f : Nat) :
    Except String (Nat × AndersNodeFactory) :=
  let nextIdx := fac.nodes.length
  let nodes' := fac.nodes ++ [⟨.VALUE_NODE, nextIdx, some (.func f)⟩]
  if (lookupA fac.returnMap f).isSome then
    .error "Trying to insert two mappings to returnMap!"
  else
    .ok (nextIdx, { fac with nodes := nodes', returnMap := (f, nextIdx) :: fac.returnMap })

/-- `AndersNodeFactory::createVarargNode(f)`: appends a VALUE node recording
the function and asserts the function has no vararg node yet. -/
def createVarargNode (fac : AndersNodeFactory) (f : Nat) :
    Except String (Nat × AndersNodeFactory) :=
  let nextIdx := fac.nodes.length
  let nodes' := fac.nodes ++ [⟨.VALUE_NODE, nextIdx, some (.func f)⟩]
  if (lookupA fac.varargMap f).isSome then
    .error "Trying to insert two mappings to varargMap!"
  else
    .ok (nextIdx, { fac with nodes := nodes', varargMap := (f, nextIdx) :: fac.varargMap })

/-- `AndersNodeFactory::getValueNodeForConstant(c)`: asserts the constant is
pointer-typed, then follows the source's cascade — null/undef to the Null
Value node, a global to the map lookup `getValueNodeFor` performs for
globals, and the `ConstantExpr` switch (GEP asserts false before its dead
recursion; `IntToPtr` to the Universal Value node; `PtrToInt` to the Int
Value node — a branch the entry assertion makes unreachable, a ptr-to-int
cast being integer-typed; `BitCast` recursing on the operand; any other
opcode `llvm_unreachable`).  A remaining constant kind (undef is the one
that exists on the object path) is `llvm_unreachable("Unknown constant
pointer!")`. -/
def getValueNodeForConstant (fac : AndersNodeFactory) (c : Constant) : Except String Nat :=
  if !(Constant.ty c).isPointerTy then .error "Not a constant pointer!"
  else
    match c with
    | .nullPtr _ => .ok getNullPtrNode
    | .undef _ => .ok getNullPtrNode
    | .globalValue g p => .ok ((lookupA fac.valueNodeMap (.const (.globalValue g p))).getD InvalidIndex)
    | .gep _ _ _ => .error "This is wrong: avoid getting here!"
    | .intToPtr _ _ => .ok getUniversalPtrNode
    | .ptrToInt _ _ => .ok getIntPtrNode
    | .bitCast op _ => getValueNodeForConstant fac op
    | .otherExpr _ => .error "Constant Expr not yet handled"

/-- `AndersNodeFactory::getValueNodeFor(val)`: a non-global constant goes
through `getValueNodeForConstant`; everything else (including globals and
functions) is a `valueNodeMap` lookup returning `InvalidIndex` when
absent. -/
def getValueNodeFor (fac : AndersNodeFactory) (v : Value) : Except String Nat :=
  match v with
  | .const c =>
    if !(Constant.isGlobalValue c) then getValueNodeForConstant fac c
    else .ok ((lookupA fac.valueNodeMap v).getD InvalidIndex)
  | _ => .ok ((lookupA fac.valueNodeMap v).getD InvalidIndex)

/-- `AndersNodeFactory::getObjectNodeForConstant(c)`: asserts the constant
is pointer-typed, then — null to the Null Object node; a global to the map
lookup `getObjectNodeFor` performs for globals; the `ConstantExpr` switch:
a GEP resolves the object node of its pointer operand recursively,
short-circuits if that base is the Null or Universal object, and otherwise
returns `getOffsetObjectNode(base, constGEPtoFieldNum(ce))`; `IntToPtr` to
the Universal Object node; `BitCast` recursing on the operand; any other
opcode `llvm_unreachable`.  A remaining constant kind — undef in
particular — is `llvm_unreachable("Unknown constant pointer!")`. -/
def getObjectNodeForConstant (o : Oracle) (fac : AndersNodeFactory) (c : Constant) :
    Except String Nat :=
  if !(Constant.ty c).isPointerTy then .error "Not a constant pointer!"
  else
    match c with
    | .nullPtr _ => .ok getNullObjectNode
    | .globalValue g p => .ok ((lookupA fac.objNodeMap (.const (.globalValue g p))).getD InvalidIndex)
    | .gep base idxs p =>
      match getObjectNodeForConstant o fac base with
      | .error e => .error e
      | .ok baseNode =>
        if baseNode = getNullObjectNode ∨ baseNode = getUniversalObjNode then .ok baseNode
        else
          match constGEPtoFieldNum o (.gep base idxs p) with
          | .error e => .error e
          | .ok fn => .ok (getOffsetObjectNode baseNode fn.num)
    | .intToPtr _ _ => .ok getUniversalObjNode
    | .bitCast op _ => getObjectNodeForConstant o fac op
    | .otherExpr _ => .error "Constant Expr not yet handled"
    | .undef _ => .error "Unknown constant pointer!"
    | .ptrToInt _ _ => .error "Unknown constant pointer!"

/-- `AndersNodeFactory::getObjectNodeFor(val)`: a non-global constant goes
through `getObjectNodeForConstant`; everything else is an `objNodeMap`
lookup returning `InvalidIndex` when absent. -/
def getObjectNodeFor (o : Oracle) (fac : AndersNodeFactory) (v : Value) : Except String Nat :=
  match v with
  | .const c =>
    if !(Constant.isGlobalValue c) then getObjectNodeForConstant o fac c
    else .ok ((lookupA fac.objNodeMap v).getD InvalidIndex)
  | _ => .ok ((lookupA fac.objNodeMap v).getD InvalidIndex)

/-- `AndersNodeFactory::getReturnNodeFor(f)`: `returnMap` lookup. -/
def getReturnNodeFor (fac : AndersNodeFactory) (f : Nat) : Nat :=
  (lookupA fac.returnMap f).getD InvalidIndex

/-- `AndersNodeFactory::getVarargNodeFor(f)`: `varargMap` lookup. -/
def getVarargNodeFor (fac : AndersNodeFactory) (f : Nat) : Nat :=
  (lookupA fac.varargMap f).getD InvalidIndex

/-- One node-creation call, for reasoning about interleavings of the four
creation entry points. -/
inductive CreateOp where
  | value (v : Option Value)
  | object (v : Option Value)
  | ret (f : Nat)
  | vararg (f : Nat)

/-- Dispatch of one creation call. -/
def applyOp (fac : AndersNodeFactory) : CreateOp → Except String (Nat × AndersNodeFactory)
  | .value v => createValueNode fac v
  | .object v => createObjectNode fac v
  | .ret f => createReturnNode fac f
  | .vararg f => createVarargNode fac f

/-- Run a sequence of creation calls, collecting the indices they return.
A failing call is a fatal assertion: it aborts the run, so no further index
is returned and the state reached before the failing call is final. -/
def runOps : AndersNodeFactory → List CreateOp → List Nat × AndersNodeFactory
  | fac, [] => ([], fac)
  | fac, op :: rest =>
    match applyOp fac op with
    | .error _ => ([], fac)
    | .ok (i, fac') =>
      let r := runOps fac' rest
      (i :: r.1, r.2)

/-- The two-field structure of the spec's concrete scenario: two 8-byte
scalar fields at byte offsets 0 and 8. -/
def demoStruct : Ty :=
  .structTy (.fcons (.intTy 64) 0 (.fcons (.intTy 64) 8 .fnil))

/-- A concrete layout oracle for the demo structure: 8-byte scalars, a
16-byte structure, logical field ordinals equal to element indices
(no nested aggregates), and a GEP index computation landing on byte
offset 8. -/
def demoOracle : Oracle :=
  { allocSize := fun t =>
      match t with
      | .structTy _ => 16
      | _ => 8,
    structInfo := fun _ => some (fun i => i),
    indexedOffset := fun _ _ => 8 }

/-- The global a witness GEP computes into: a global variable of the demo
structure type. -/
def wGlobal : Constant := .globalValue 7 demoStruct

/-- Factory state after registering an object node for the demo global
(index 5, the first index after the reserved ones). -/
def wFac : AndersNodeFactory :=
  match createObjectNode newAndersNodeFactory (some (.const wGlobal)) with
  | .ok r => r.2
  | .error _ => newAndersNodeFactory

/-- Stored index equals table position — the shape the appended-node
discipline of the creation calls maintains. -/
def IdxInv (nodes : List AndersNode) : Prop :=
  ∀ (i : Nat) (h : i < nodes.length), nodes[i].idx = i

theorem createValueNode_ok {fac : AndersNodeFactory} {v : Option Value} {i : Nat}
    {fac' : AndersNodeFactory} (h : createValueNode fac v = .ok (i, fac')) :
    i = fac.nodes.length ∧
      ∃ n : AndersNode, n.idx = fac.nodes.length ∧ fac'.nodes = fac.nodes ++ [n] := by
  cases v with
  | none =>
    simp only [createValueNode, Except.ok.injEq, Prod.mk.injEq] at h
    exact ⟨h.1.symm, ⟨_, rfl, by rw [← h.2]⟩⟩
  | some v =>
    simp only [createValueNode] at h
    split at h
    · exact absurd h (by simp)
    · simp only [Except.ok.injEq, Prod.mk.injEq] at h
      exact ⟨h.1.symm, ⟨_, rfl, by rw [← h.2]⟩⟩

theorem createObjectNode_ok {fac : AndersNodeFactory} {v : Option Value} {i : Nat}
    {fac' : AndersNodeFactory} (h : createObjectNode fac v = .ok (i, fac')) :
    i = fac.nodes.length ∧
      ∃ n : AndersNode, n.idx = fac.nodes.length ∧ fac'.nodes = fac.nodes ++ [n] := by
  cases v with
  | none =>
    simp only [createObjectNode, Except.ok.injEq, Prod.mk.injEq] at h
    exact ⟨h.1.symm, ⟨_, rfl, by rw [← h.2]⟩⟩
  | some v =>
    simp only [createObjectNode] at h
    split at h
    · exact absurd h (by simp)
    · simp only [Except.ok.injEq, Prod.mk.injEq] at h
      exact ⟨h.1.symm, ⟨_, rfl, by rw [← h.2]⟩⟩

theorem createReturnNode_ok {fac : AndersNodeFactory} {f : Nat} {i : Nat}
    {fac' : AndersNodeFactory} (h : createReturnNode fac f = .ok (i, fac')) :
    i = fac.nodes.length ∧
      ∃ n : AndersNode, n.idx = fac.nodes.length ∧ fac'.nodes = fac.nodes ++ [n] := by
  simp only [createReturnNode] at h
  split at h
  · exact absurd h (by simp)
  · simp only [Except.ok.injEq, Prod.mk.injEq] at h
    exact ⟨h.1.symm, ⟨_, rfl, by rw [← h.2]⟩⟩

theorem createVarargNode_ok {fac : AndersNodeFactory} {f : Nat} {i : Nat}
    {fac' : AndersNodeFactory} (h : createVarargNode fac f = .ok (i, fac')) :
    i = fac.nodes.length ∧
      ∃ n : AndersNode, n.idx = fac.nodes.length ∧ fac'.nodes = fac.nodes ++ [n] := by
  simp only [createVarargNode] at h
  split at h
  · exact absurd h (by simp)
  · simp only [Except.ok.injEq, Prod.mk.injEq] at h
    exact ⟨h.1.symm, ⟨_, rfl, by rw [← h.2]⟩⟩

theorem applyOp_ok {fac : AndersNodeFactory} {op : CreateOp} {i : Nat}
    {fac' : AndersNodeFactory} (h : applyOp fac op = .ok (i, fac')) :
    i = fac.nodes.length ∧
      ∃ n : AndersNode, n.idx = fac.nodes.length ∧ fac'.nodes = fac.nodes ++ [n] := by
  cases op with
  | value v => exact createValueNode_ok h
  | object v => exact createObjectNode_ok h
  | ret f => exact createReturnNode_ok h
  | vararg f => exact createVarargNode_ok h

theorem runOps_spec (ops : List CreateOp) (fac : AndersNodeFactory) :
    (runOps fac ops).1 = List.range' fac.nodes.length (runOps fac ops).1.length ∧
      ∃ tail, (runOps fac ops).2.nodes = fac.nodes ++ tail ∧
        tail.length = (runOps fac ops).1.length := by
  induction ops generalizing fac with
  | nil => exact ⟨rfl, [], by simp [runOps]⟩
  | cons op rest ih =>
    cases h : applyOp fac op with
    | error e => simp [runOps, h]
    | ok r =>
      obtain ⟨i, fac'⟩ := r
      obtain ⟨hi, n, hn, hnodes⟩ := applyOp_ok h
      obtain ⟨htr, tail, htail, hlen⟩ := ih fac'
      have hlen' : fac'.nodes.length = fac.nodes.length + 1 := by
        rw [hnodes]; simp
      constructor
      · simp only [runOps, h]
        rw [List.length_cons, List.range'_succ, hi, htr, hlen']
        simp
      · refine ⟨n :: tail, ?_, ?_⟩
        · simp only [runOps, h]
          rw [htail, hnodes]
          simp
        · simp only [runOps, h]
          simp [hlen]

theorem IdxInv_append {nodes : List AndersNode} {n : AndersNode}
    (hn : n.idx = nodes.length) (h : IdxInv nodes) : IdxInv (nodes ++ [n]) := by
  intro i hi
  rcases Nat.lt_or_ge i nodes.length with hlt | hge
  · rw [List.getElem_append_left hlt]
    exact h i hlt
  · have hlen : i < nodes.length + 1 := by simpa using hi
    have : i = nodes.length := Nat.le_antisymm (Nat.lt_succ_iff.mp hlen) hge
    rw [List.getElem_concat_length _ _ _ this]
    rw [hn, this]

theorem runOps_IdxInv (ops : List CreateOp) (fac : AndersNodeFactory)
    (h : IdxInv fac.nodes) : IdxInv (runOps fac ops).2.nodes := by
  induction ops generalizing fac with
  | nil => exact h
  | cons op rest ih =>
    cases hop : applyOp fac op with
    | error e => simpa [runOps, hop] using h
    | ok r =>
      obtain ⟨i, fac'⟩ := r
      obtain ⟨hi, n, hn, hnodes⟩ := applyOp_ok hop
      have h' : IdxInv fac'.nodes := by
        rw [hnodes]; exact IdxInv_append hn h
      simpa [runOps, hop] using ih fac' h'

/-- C1: immediately after construction the factory holds exactly the five
reserved nodes, at indices 0–4, of kinds VALUE, OBJECT, VALUE, OBJECT,
VALUE (Universal Value, Universal Object, Null Value, Null Object, Int
Value); any subsequent interleaving of creation calls leaves those five
table entries untouched and only ever hands out indices ≥ 5. -/
theorem reserved_nodes_invariant :
    newAndersNodeFactory.nodes =
      [⟨.VALUE_NODE, 0, none⟩, ⟨.OBJ_NODE, 1, none⟩, ⟨.VALUE_NODE, 2, none⟩,
       ⟨.OBJ_NODE, 3, none⟩, ⟨.VALUE_NODE, 4, none⟩] ∧
    ∀ ops : List CreateOp,
      (runOps newAndersNodeFactory ops).2.nodes.take 5 = newAndersNodeFactory.nodes ∧
      ∀ i ∈ (runOps newAndersNodeFactory ops).1, 5 ≤ i := by
  refine ⟨rfl, fun ops => ?_⟩
  obtain ⟨htr, tail, htail, -⟩ := runOps_spec ops newAndersNodeFactory
  constructor
  · rw [htail]
    exact List.take_left' rfl
  · intro i hi
    rw [htr] at hi
    exact (List.mem_range'_1.mp hi).1

/-- C2: for every interleaving of the four creation calls the returned
indices are strictly increasing in call order (hence never repeated), every
call appends exactly one node to the table, and every table entry's stored
index equals its position. -/
theorem creation_indices_monotone (ops : List CreateOp) :
    ((runOps newAndersNodeFactory ops).1.Pairwise (· < ·)) ∧
    ((runOps newAndersNodeFactory ops).1.Nodup) ∧
    ((runOps newAndersNodeFactory ops).2.nodes.length =
        newAndersNodeFactory.nodes.length + (runOps newAndersNodeFactory ops).1.length) ∧
    IdxInv (runOps newAndersNodeFactory ops).2.nodes := by
  obtain ⟨htr, tail, htail, hlen⟩ := runOps_spec ops newAndersNodeFactory
  refine ⟨?_, ?_, ?_, ?_⟩
  · rw [htr]; exact List.pairwise_lt_range' _ _
  · rw [htr]; exact List.nodup_range' _ _
  · rw [htail]; simp [hlen]
  · refine runOps_IdxInv ops newAndersNodeFactory ?_
    intro i h
    have h5 : i < 5 := by simpa [newAndersNodeFactory] using h
    interval_cases i <;> rfl

/-- C3: creating a value node twice for the same non-null entity makes the
second call fail with the duplicate-mapping assertion instead of returning
an index; likewise for object-node creation on an already-mapped entity and
for return-node and vararg-node creation on a function that already has
one. -/
theorem duplicate_creation_fatal (fac : AndersNodeFactory) (v : Value) (f : Nat) :
    (∀ r, createValueNode fac (some v) = .ok r →
        ∃ e, createValueNode r.2 (some v) = .error e) ∧
    (∀ r, createObjectNode fac (some v) = .ok r →
        ∃ e, createObjectNode r.2 (some v) = .error e) ∧
    (∀ r, createReturnNode fac f = .ok r → ∃ e, createReturnNode r.2 f = .error e) ∧
    (∀ r, createVarargNode fac f = .ok r → ∃ e, createVarargNode r.2 f = .error e) := by
  refine ⟨fun r h => ?_, fun r h => ?_, fun r h => ?_, fun r h => ?_⟩
  · simp only [createValueNode] at h ⊢
    split at h
    · exact absurd h (by simp)
    · simp only [Except.ok.injEq] at h
      rw [← h]
      simp [lookupA]
  · simp only [createObjectNode] at h ⊢
    split at h
    · exact absurd h (by simp)
    · simp only [Except.ok.injEq] at h
      rw [← h]
      simp [lookupA]
  · simp only [createReturnNode] at h ⊢
    split at h
    · exact absurd h (by simp)
    · simp only [Except.ok.injEq] at h
      rw [← h]
      simp [lookupA]
  · simp only [createVarargNode] at h ⊢
    split at h
    · exact absurd h (by simp)
    · simp only [Except.ok.injEq] at h
      rw [← h]
      simp [lookupA]

/-- Factory state after a first successful `createValueNode` for entity
`var 0`: node 5 appended and the entity mapped to 5. -/
def wV1 : AndersNodeFactory :=
  { newAndersNodeFactory with
      nodes := newAndersNodeFactory.nodes ++ [⟨.VALUE_NODE, 5, some (.var 0)⟩],
      valueNodeMap := [(.var 0, 5)] }

/-- Factory state after a first successful `createObjectNode` for `var 0`. -/
def wO1 : AndersNodeFactory :=
  { newAndersNodeFactory with
      nodes := newAndersNodeFactory.nodes ++ [⟨.OBJ_NODE, 5, some (.var 0)⟩],
      objNodeMap := [(.var 0, 5)] }

/-- Factory state after a first successful `createReturnNode` for function 0. -/
def wR1 : AndersNodeFactory :=
  { newAndersNodeFactory with
      nodes := newAndersNodeFactory.nodes ++ [⟨.VALUE_NODE, 5, some (.func 0)⟩],
      returnMap := [(0, 5)] }

/-- Factory state after a first successful `createVarargNode` for function 0. -/
def wW1 : AndersNodeFactory :=
  { newAndersNodeFactory with
      nodes := newAndersNodeFactory.nodes ++ [⟨.VALUE_NODE, 5, some (.func 0)⟩],
      varargMap := [(0, 5)] }

/-- Witness for C3: concrete second calls after a first successful creation
for entity `var 0` (resp. function 0) fail with the duplicate-mapping
assertion. -/
theorem duplicate_creation_fatal_witness :
    (∃ e, createValueNode wV1 (some (.var 0)) = .error e) ∧
    (∃ e, createObjectNode wO1 (some (.var 0)) = .error e) ∧
    (∃ e, createReturnNode wR1 0 = .error e) ∧
    (∃ e, createVarargNode wW1 0 = .error e) :=
  ⟨(duplicate_creation_fatal newAndersNodeFactory (.var 0) 0).1 (5, wV1) rfl,
   (duplicate_creation_fatal newAndersNodeFactory (.var 0) 0).2.1 (5, wO1) rfl,
   (duplicate_creation_fatal newAndersNodeFactory (.var 0) 0).2.2.1 (5, wR1) rfl,
   (duplicate_creation_fatal newAndersNodeFactory (.var 0) 0).2.2.2 (5, wW1) rfl⟩

/-- Counterexample for C4 as stated: on a concrete pointer-to-integer cast
constant (`ptrtoint i8* null to i64`) the function does not return the Int
Value node — the constant's own type is an integer, so the entry
pointer-type assertion fires first. -/
theorem valueNode_ptrToInt_counterexample :
    getValueNodeForConstant newAndersNodeFactory (.ptrToInt (.nullPtr (.intTy 8)) 64) ≠
      .ok getIntPtrNode := by
  intro h
  exact Except.noConfusion h

/-- C4 (amended): on null and undefined pointer constants the resolution
returns the Null Value node (2); on integer-to-pointer cast constants the
Universal Value node (0); on pointer bit-cast constants it recurses on the
cast operand.  A pointer-to-integer cast constant, however, never reaches
the `PtrToInt` branch that would return the Int Value node (4): such a
constant is integer-typed, so the entry `isa<PointerType>` assertion is a
fatal contract violation. -/
theorem valueNodeForConstant_cases (fac : AndersNodeFactory) :
    (∀ p, getValueNodeForConstant fac (.nullPtr p) = .ok getNullPtrNode) ∧
    (∀ p, getValueNodeForConstant fac (.undef (.ptrTy p)) = .ok getNullPtrNode) ∧
    (∀ c p, getValueNodeForConstant fac (.intToPtr c p) = .ok getUniversalPtrNode) ∧
    (∀ c b, getValueNodeForConstant fac (.ptrToInt c b) = .error "Not a constant pointer!") ∧
    (∀ c p, getValueNodeForConstant fac (.bitCast c (.ptrTy p)) = getValueNodeForConstant fac c) :=
  ⟨fun _ => rfl, fun _ => rfl, fun _ _ => rfl, fun _ _ => rfl, fun _ _ => rfl⟩

/-- C9: a constant GEP expression reaching `getValueNodeForConstant` always
hits the `assert(false)` of the `GetElementPtr` case — this entry point
never resolves a structured-access constant to an index. -/
theorem valueNode_gep_fatal (fac : AndersNodeFactory) (base : Constant)
    (idxs : List GepIdx) (p : Ty) :
    getValueNodeForConstant fac (.gep base idxs p) =
      .error "This is wrong: avoid getting here!" :=
  rfl

/-- C10: the value path maps both null and undef pointer constants to the
Null Value node, but the object path maps only null to the Null Object
node — a pointer-typed undef is not matched by any case of
`getObjectNodeForConstant` and falls into the fatal unknown-constant
branch. -/
theorem undef_object_asymmetry (o : Oracle) (fac : AndersNodeFactory) (p : Ty) :
    getValueNodeForConstant fac (.undef (.ptrTy p)) = .ok getNullPtrNode ∧
    getObjectNodeForConstant o fac (.undef (.ptrTy p)) = .error "Unknown constant pointer!" ∧
    (∀ q, getObjectNodeForConstant o fac (.nullPtr q) = .ok getNullObjectNode) :=
  ⟨rfl, rfl, fun _ => rfl⟩

/-- C5: `getObjectNodeForConstant` on a constant GEP resolves the object
node of the base (pointer) operand recursively; a base resolving to the
Null Object or Universal Object node is returned unchanged, and any other
base index `b` yields `b + fieldNumber` with the field number computed by
`constGEPtoFieldNum` (the byte-offset → field-number algorithm). -/
theorem objectNode_gep (o : Oracle) (fac : AndersNodeFactory) (base : Constant)
    (idxs : List GepIdx) (p : Ty) :
    (∀ b, getObjectNodeForConstant o fac base = .ok b →
        (b = getNullObjectNode ∨ b = getUniversalObjNode) →
        getObjectNodeForConstant o fac (.gep base idxs p) = .ok b) ∧
    (∀ b fn, getObjectNodeForConstant o fac base = .ok b →
        b ≠ getNullObjectNode → b ≠ getUniversalObjNode →
        constGEPtoFieldNum o (.gep base idxs p) = .ok fn →
        getObjectNodeForConstant o fac (.gep base idxs p) = .ok (b + fn.num)) := by
  have hdef : getObjectNodeForConstant o fac (.gep base idxs p) =
      match getObjectNodeForConstant o fac base with
      | .error e => .error e
      | .ok baseNode =>
        if baseNode = getNullObjectNode ∨ baseNode = getUniversalObjNode then .ok baseNode
        else
          match constGEPtoFieldNum o (.gep base idxs p) with
          | .error e => .error e
          | .ok fn => .ok (getOffsetObjectNode baseNode fn.num) := rfl
  constructor
  · intro b hb hsent
    rw [hdef, hb]
    dsimp only
    rw [if_pos hsent]
  · intro b fn hb hb3 hb1 hfn
    rw [hdef, hb]
    dsimp only
    rw [if_neg (not_or.mpr ⟨hb3, hb1⟩), hfn]
    rfl

/-- Witness for C5: with the demo layout oracle, a constant GEP off the
demo global (object node 5) at byte offset 8 resolves to node 5 + 1 = 6. -/
theorem objectNode_gep_witness :
    getObjectNodeForConstant demoOracle wFac (.gep wGlobal [.constInt 1] demoStruct) = .ok 6 :=
  (objectNode_gep demoOracle wFac wGlobal [.constInt 1] demoStruct).2 5 ⟨1, false⟩ rfl
    (by decide) (by decide) rfl

/-- C6: when the walk of `offsetToFieldNum` reaches a non-structure type
with a nonzero offset remaining inside it (the union / overlapping-access
case), it stops and returns the field number accumulated so far as a
successful result carrying the diagnostic flag — a warning, not a fatal
abort. -/
theorem union_warning_nonfatal (o : Oracle) (ty : Ty) (offset ret fuel : Nat)
    (hstruct : (collapseArrays ty).isStructTy = false)
    (hmod : offset % o.allocSize (collapseArrays ty) ≠ 0) :
    offsetToFieldNumLoop o (fuel + 1) ty offset ret = .ok ⟨ret, true⟩ := by
  have hoff : ¬offset = 0 := by
    intro h
    exact hmod (by simp [h])
  simp only [offsetToFieldNumLoop]
  rw [if_neg hoff]
  cases hty : collapseArrays ty with
  | intTy b =>
    rw [hty] at hmod
    simp [hmod]
  | ptrTy pt =>
    rw [hty] at hmod
    simp [hmod]
  | arrayTy n e =>
    rw [hty] at hmod
    simp [hmod]
  | structTy fs =>
    rw [hty] at hstruct
    simp [Ty.isStructTy] at hstruct

/-- Witness for C6: a pointer to a bare 4-byte-aligned scalar with offset 4
into an 8-byte field returns the accumulated field number 0 with the
diagnostic flag set. -/
theorem union_warning_nonfatal_witness :
    offsetToFieldNumLoop demoOracle 1 (.intTy 32) 4 0 = .ok ⟨0, true⟩ :=
  union_warning_nonfatal demoOracle (.intTy 32) 4 0 0 (by decide) (by decide)

/-- Helper: every type has positive structural size, so the loop bound the
wrapper passes always allows at least one iteration. -/
theorem Ty.size_pos (t : Ty) : 0 < Ty.size t := by
  cases t <;> simp [Ty.size]

/-- C7: arrays do not split field-sensitivity — array types are collapsed
to their element type, a byte offset addressing element `k` of an array of
scalars yields field number 0 (with no diagnostic) exactly as the offset
addressing element `k + 1` does, and offset 0 always yields field
number 0. -/
theorem array_collapse (o : Oracle) :
    (∀ n e, collapseArrays (.arrayTy n e) = collapseArrays e) ∧
    (∀ n b k, offsetToFieldNum o (.ptrTy (.arrayTy n (.intTy b)))
        (k * o.allocSize (.intTy b)) = .ok ⟨0, false⟩) ∧
    (∀ n b k, offsetToFieldNum o (.ptrTy (.arrayTy n (.intTy b)))
        (k * o.allocSize (.intTy b)) =
      offsetToFieldNum o (.ptrTy (.arrayTy n (.intTy b)))
        ((k + 1) * o.allocSize (.intTy b))) ∧
    (∀ t, offsetToFieldNum o (.ptrTy t) 0 = .ok ⟨0, false⟩) := by
  have key : ∀ n b k, offsetToFieldNum o (.ptrTy (.arrayTy n (.intTy b)))
      (k * o.allocSize (.intTy b)) = .ok ⟨0, false⟩ := by
    intro n b k
    have h1 : offsetToFieldNum o (.ptrTy (.arrayTy n (.intTy b)))
        (k * o.allocSize (.intTy b)) =
        if k * o.allocSize (.intTy b) = 0 then (.ok ⟨0, false⟩ : Except String FieldNumRes)
        else if (k * o.allocSize (.intTy b)) % o.allocSize (.intTy b) ≠ 0 then .ok ⟨0, true⟩
        else .ok ⟨0, false⟩ := rfl
    rw [h1]
    by_cases h0 : k * o.allocSize (.intTy b) = 0
    · simp [h0]
    · simp [h0, Nat.mul_mod_left]
  refine ⟨fun _ _ => rfl, key, fun n b k => ?_, fun t => ?_⟩
  · rw [key, key]
  · show offsetToFieldNumLoop o (Ty.size t) t 0 0 = .ok ⟨0, false⟩
    rcases h : Ty.size t with _ | m
    · exact absurd h (Nat.pos_iff_ne_zero.mp (Ty.size_pos t))
    · rfl

/-- C8: for the 2-field demo structure (fields at byte offsets 0 and 8,
the layout oracle reporting logical field ordinal 1 for the element
containing offset 8), the byte-offset → field-number walk at offset 8
returns field number 1, and the offset object node of a base object `O` at
field 1 is `O + 1`. -/
theorem struct_field_offset8 :
    offsetToFieldNum demoOracle (.ptrTy demoStruct) 8 = .ok ⟨1, false⟩ ∧
    ∀ O : Nat, getOffsetObjectNode O 1 = O + 1 :=
  ⟨rfl, fun _ => rfl⟩

end Andersen
